import Mathlib

/-!
Verification of the Context Attachment Layer of the `failure` repository
(`src/result_ext.rs`): the three `Result` extension methods `compat`,
`context` and `with_context`, and their specialization to the library's
type-erased boxed error container.

The extension methods themselves are translated directly from
`src/result_ext.rs`.  The collaborator types they depend on (`Fail`,
`Compat`, `Context`, `Error`) are declared elsewhere in the library and are
not part of the given sources; they are modelled from the specification's
description of their interfaces (capability trait with erasure to a boxed
form and a display string; a Context wrapper displaying only its payload and
retaining the original error as its cause; a Compat wrapper owning the inner
error).
-/

namespace FailureSpec

/-- Modelled from the spec: the library's type-erased error shape, as far as
this layer observes it — a human-readable display string and an optional
chained cause (`base` has no cause, `link` chains to one). This stands in for
the boxed, type-erased error representation that the Error Capability can
convert into. -/
inductive ErasedFail : Type where
  | base : String → ErasedFail
  | link : String → ErasedFail → ErasedFail
  deriving DecidableEq

/-- The human-readable display string of an erased error. -/
def ErasedFail.display : ErasedFail → String
  | .base s => s
  | .link s _ => s

/-- The chained cause of an erased error, when present. -/
def ErasedFail.cause : ErasedFail → Option ErasedFail
  | .base _ => none
  | .link _ c => some c

/-- The length of the cause chain below an erased error: the number of cause
links walked before reaching an error with no cause. -/
def ErasedFail.causeDepth : ErasedFail → Nat
  | .base _ => 0
  | .link _ c => c.causeDepth + 1

/-- Modelled from the spec: the displayable-payload capability — any payload
type `D` attached as context must produce a human-readable display string. -/
class Display (D : Type) where
  display : D → String

instance : Display String := ⟨fun s => s⟩

/-- Modelled from the spec: the Error Capability trait (`Fail`), reduced to
the one method this layer consumes — conversion of a conforming error into
the library's type-erased boxed representation. -/
class Fail (E : Type) where
  erase : E → ErasedFail

/-- The display string of a capability-conforming error, read through its
erased form. -/
def Fail.display {E : Type} [Fail E] (e : E) : String :=
  (Fail.erase e).display

/-- Modelled from the spec: the Compatibility Wrapper — owns the inner error
exclusively and re-exposes it through the legacy error interface. -/
structure Compat (E : Type) where
  error : E
  deriving DecidableEq

/-- Modelled from the spec: the legacy description of a Compat wrapper is the
inner error's display text. -/
def Compat.description {E : Type} [Fail E] (c : Compat E) : String :=
  Fail.display c.error

/-- Modelled from the spec: the Context Wrapper — holds the descriptive
payload `D` and the original error, in its erased form, retained as the
chained cause. -/
structure Context (D : Type) where
  context : D
  failure : ErasedFail
  deriving DecidableEq

/-- Modelled from the spec: the display contract of the Context Wrapper —
when formatted it shows only the attached payload's display text. -/
def Context.display {D : Type} [Display D] (c : Context D) : String :=
  Display.display c.context

/-- Modelled from the spec: the original error remains reachable as the
wrapper's cause. -/
def Context.cause {D : Type} (c : Context D) : Option ErasedFail :=
  some c.failure

/-- Modelled from the spec: `Fail::compat` — wraps a capability-conforming
error in a Compat wrapper, taking ownership, without formatting it. -/
def Fail.compat {E : Type} [Fail E] (e : E) : Compat E :=
  ⟨e⟩

/-- Modelled from the spec: `Fail::context` — constructs a Context Wrapper
holding the payload and the error converted to its erased form as the
retained cause. -/
def Fail.context {E D : Type} [Fail E] [Display D] (e : E) (context : D) :
    Context D :=
  ⟨context, Fail.erase e⟩

/-- An erased error is itself capability-conforming; erasing it is the
identity. -/
instance : Fail ErasedFail := ⟨fun e => e⟩

/-- A Context wrapper is itself capability-conforming: its erased form
displays the payload and chains to the wrapped erased error as cause. -/
instance {D : Type} [Display D] : Fail (Context D) :=
  ⟨fun c => .link (Display.display c.context) c.failure⟩

/-- Modelled from the spec: the library's type-erased boxed error container
(`Error`), holding an erased error. -/
structure Error where
  inner : ErasedFail
  deriving DecidableEq

instance : Fail Error := ⟨Error.inner⟩

/-- Modelled from the spec: `Error::compat` — wraps the container in a
Compat wrapper. -/
def Error.compat (e : Error) : Compat Error :=
  ⟨e⟩

/-- Modelled from the spec: `Error::context` — constructs a Context Wrapper
holding the payload with the container's erased error as retained cause. -/
def Error.context {D : Type} [Display D] (e : Error) (context : D) :
    Context D :=
  ⟨context, e.inner⟩

/-- The fallible result type the layer extends: a discriminated union of a
success value and an error value, as in the source's `Result<T, E>`. -/
inductive Result (T E : Type) where
  | ok : T → Result T E
  | err : E → Result T E
  deriving DecidableEq

/-- `Result::map_err`: applies a transformation to the error side only; the
success side passes through untouched and the closure is not applied. -/
def Result.map_err {T E F : Type} : Result T E → (E → F) → Result T F
  | .ok v, _ => .ok v
  | .err e, f => .err (f e)

/-- Instrumented `map_err`: alongside the transformed result, counts how many
times the closure argument is applied (the call counter of the spec's
testable properties). -/
def Result.map_err_count {T E F : Type} :
    Result T E → (E → F) → Result T F × Nat
  | .ok v, _ => (.ok v, 0)
  | .err e, f => (.err (f e), 1)

/-- Whether a result is a success: the Ok/Err discriminant. -/
def Result.is_ok {T E : Type} : Result T E → Bool
  | .ok _ => true
  | .err _ => false

/-- The cause-chain length of the error side of a result over erased errors;
a success has no error and counts as zero. -/
def Result.errCauseDepth {T : Type} : Result T ErasedFail → Nat
  | .ok _ => 0
  | .err e => e.causeDepth

namespace ResultExt

/-- `ResultExt::compat` for `Result<T, E> where E: Fail`, from
`src/result_ext.rs`: `self.map_err(|err| err.compat())`. -/
def compat {T E : Type} [Fail E] (self : Result T E) : Result T (Compat E) :=
  self.map_err (fun err => Fail.compat err)

/-- `ResultExt::context` for `Result<T, E> where E: Fail`, from
`src/result_ext.rs`: `self.map_err(|failure| failure.context(context))`. -/
def context {T E D : Type} [Fail E] [Display D] (self : Result T E)
    (context : D) : Result T (Context D) :=
  self.map_err (fun failure => Fail.context failure context)

/-- `ResultExt::with_context` for `Result<T, E> where E: Fail`, from
`src/result_ext.rs`:
`self.map_err(|failure| { let context = f(&failure); failure.context(context) })`. -/
def with_context {T E D : Type} [Fail E] [Display D] (self : Result T E)
    (f : E → D) : Result T (Context D) :=
  self.map_err (fun failure =>
    let context := f failure
    Fail.context failure context)

/-- Instrumented `ResultExt::context`: same closure as `context`, with the
count of how many times the closure consuming the payload is applied. -/
def context_count {T E D : Type} [Fail E] [Display D] (self : Result T E)
    (context : D) : Result T (Context D) × Nat :=
  self.map_err_count (fun failure => Fail.context failure context)

/-- Instrumented `ResultExt::with_context`: same closure as `with_context`,
with the count of how many times the closure is applied; the closure invokes
the payload function `f` exactly once each time it runs, so this is the call
counter of `f`. -/
def with_context_count {T E D : Type} [Fail E] [Display D] (self : Result T E)
    (f : E → D) : Result T (Context D) × Nat :=
  self.map_err_count (fun failure =>
    let context := f failure
    Fail.context failure context)

end ResultExt

namespace ErrorResultExt

/-- `ResultExt::compat` specialized to `Result<T, Error>`, from
`src/result_ext.rs` (the `with_std!` block):
`self.map_err(|err| err.compat())`. -/
def compat {T : Type} (self : Result T Error) : Result T (Compat Error) :=
  self.map_err (fun err => Error.compat err)

/-- `ResultExt::context` specialized to `Result<T, Error>`, from
`src/result_ext.rs`: `self.map_err(|failure| failure.context(context))`. -/
def context {T D : Type} [Display D] (self : Result T Error) (context : D) :
    Result T (Context D) :=
  self.map_err (fun failure => Error.context failure context)

/-- `ResultExt::with_context` specialized to `Result<T, Error>`, from
`src/result_ext.rs`:
`self.map_err(|failure| { let context = f(&failure); failure.context(context) })`. -/
def with_context {T D : Type} [Display D] (self : Result T Error)
    (f : Error → D) : Result T (Context D) :=
  self.map_err (fun failure =>
    let context := f failure
    Fail.context failure context)

end ErrorResultExt

/-- One context wrap over erased errors: apply the context transform and
erase the resulting Context wrapper back into the type-erased shape, so that
wraps can be iterated. -/
def wrapOnce {T : Type} (s : String) (r : Result T ErasedFail) :
    Result T ErasedFail :=
  (ResultExt.context r s).map_err Fail.erase

/-- Iterated context wrapping: apply one context wrap per message in the
list. -/
def wrapAll {T : Type} : List String → Result T ErasedFail → Result T ErasedFail
  | [], r => r
  | s :: rest, r => wrapOnce s (wrapAll rest r)

/-- Helper: the display of a String payload is the string itself. -/
theorem display_string (s : String) : Display.display s = s :=
  rfl

/-- Helper: iterated wrapping of an error result folds the messages onto the
cause chain. -/
theorem wrapAll_err {T : Type} (msgs : List String) (e : ErasedFail) :
    wrapAll msgs (Result.err e : Result T ErasedFail)
      = Result.err (msgs.foldr ErasedFail.link e) := by
  induction msgs with
  | nil => rfl
  | cons s rest ih =>
      simp [wrapAll, wrapOnce, ResultExt.context, Result.map_err, ih,
        List.foldr, Fail.context, Fail.erase, display_string]

/-- Helper: folding messages onto a cause chain adds one cause link per
message. -/
theorem causeDepth_foldr (msgs : List String) (e : ErasedFail) :
    (msgs.foldr ErasedFail.link e).causeDepth = msgs.length + e.causeDepth := by
  induction msgs with
  | nil => simp [List.foldr]
  | cons s rest ih =>
      simp [List.foldr, ErasedFail.causeDepth, ih]
      omega

/-- C1: for every success result `ok v`, each of the three transforms
(`compat`, fixed-payload `context`, lazy `with_context`) returns a success
result carrying the identical success value `v`, unchanged. -/
theorem C1_success_passthrough {T E D : Type} [Fail E] [Display D]
    (v : T) (d : D) (f : E → D) :
    ResultExt.compat (Result.ok v : Result T E) = Result.ok v ∧
    ResultExt.context (Result.ok v : Result T E) d = Result.ok v ∧
    ResultExt.with_context (Result.ok v : Result T E) f = Result.ok v :=
  ⟨rfl, rfl, rfl⟩

/-- C2: for every success result `ok v` and every payload function `f`, the
lazy transform `with_context` returns `ok v` and the closure invoking `f` is
applied zero times (call counter is 0). -/
theorem C2_lazy_never_invoked_on_ok {T E D : Type} [Fail E] [Display D]
    (v : T) (f : E → D) :
    ResultExt.with_context_count (Result.ok v : Result T E) f
      = (Result.ok v, 0) ∧
    ResultExt.with_context (Result.ok v : Result T E) f = Result.ok v :=
  ⟨rfl, rfl⟩

/-- C3: for every error result `err e` and payload function `f`,
`with_context` invokes `f` exactly once (call counter is 1), passing the
original error `e`, and wraps its output `f e` identically to the
fixed-payload `context` transform: a Context wrapper holding `f e` with the
erased original error retained as cause. -/
theorem C3_with_context_err {T E D : Type} [Fail E] [Display D]
    (e : E) (f : E → D) :
    ResultExt.with_context_count (Result.err e : Result T E) f
      = (Result.err (Fail.context e (f e)), 1) ∧
    ResultExt.with_context (Result.err e : Result T E) f
      = ResultExt.context (Result.err e) (f e) ∧
    (Fail.context e (f e)).context = f e ∧
    (Fail.context e (f e)).cause = some (Fail.erase e) :=
  ⟨rfl, rfl, rfl, rfl⟩

/-- C4: for every error result `err e` and fixed payload `d`, the `context`
transform returns an error result whose error is a Context wrapper holding
`d` together with the original error, in its erased form, retained as the
wrapper's cause. -/
theorem C4_context_err {T E D : Type} [Fail E] [Display D] (e : E) (d : D) :
    ResultExt.context (Result.err e : Result T E) d
      = Result.err { context := d, failure := Fail.erase e } ∧
    (Fail.context e d).cause = some (Fail.erase e) :=
  ⟨rfl, rfl⟩

/-- C5: the `compat` transform is total, covering both constructors of its
input: on success it passes the value through, and on failure it wraps the
error value inside a Compat wrapper that stores the original error itself,
unevaluated and unformatted. -/
theorem C5_compat_total {T E : Type} [Fail E] (v : T) (e : E) :
    ResultExt.compat (Result.ok v : Result T E) = Result.ok v ∧
    ResultExt.compat (Result.err e : Result T E) = Result.err { error := e } ∧
    (Fail.compat e).error = e :=
  ⟨rfl, rfl, rfl⟩

/-- C6: the Context wrapper produced by the `context` (or `with_context`)
transform displays exactly the display text of its payload, independent of
the wrapped error; in particular, wrapping an error whose display text is
the empty string with payload "fixedMessage" still displays exactly
"fixedMessage". -/
theorem C6_display_contract {T E D : Type} [Fail E] [Display D]
    (e : E) (d : D) :
    ResultExt.context (Result.err e : Result T E) d
      = Result.err (Fail.context e d) ∧
    Context.display (Fail.context e d) = Display.display d ∧
    ResultExt.context (Result.err (ErasedFail.base "") : Result Unit ErasedFail)
        "fixedMessage"
      = Result.err (Fail.context (ErasedFail.base "") "fixedMessage") ∧
    Context.display (Fail.context (ErasedFail.base "") "fixedMessage")
      = "fixedMessage" :=
  ⟨rfl, rfl, rfl, rfl⟩

/-- C7: for the fixed-payload `context` transform applied to a success
result, the payload is not consumed: the closure consuming it is applied
zero times, and the output is independent of the payload value. -/
theorem C7_payload_unused_on_ok {T E D : Type} [Fail E] [Display D]
    (v : T) (d d' : D) :
    ResultExt.context_count (Result.ok v : Result T E) d = (Result.ok v, 0) ∧
    ResultExt.context (Result.ok v : Result T E) d
      = ResultExt.context (Result.ok v : Result T E) d' :=
  ⟨rfl, rfl⟩

/-- C8: context wrapping is not idempotent: iterating the context transform
over an error result adds one cause level per wrap, so the cause-chain
length of the result equals the number of wraps applied; in particular two
successive wraps of a cause-free error yield a two-level chain, not a
collapsed one. -/
theorem C8_chain_length_equals_wraps {T : Type}
    (msgs : List String) (e : ErasedFail) :
    (wrapAll msgs (Result.err e : Result T ErasedFail)).errCauseDepth
      = msgs.length + e.causeDepth ∧
    wrapAll ["outer", "inner"]
        (Result.err (ErasedFail.base "root") : Result Unit ErasedFail)
      = Result.err
          (ErasedFail.link "outer"
            (ErasedFail.link "inner" (ErasedFail.base "root"))) ∧
    (ErasedFail.link "outer"
        (ErasedFail.link "inner" (ErasedFail.base "root"))).causeDepth = 2 := by
  refine ⟨?_, rfl, rfl⟩
  rw [wrapAll_err]
  simp [Result.errCauseDepth, causeDepth_foldr]

/-- C9: the specialization of the three transforms to the type-erased boxed
error container `Error` behaves identically to the generic capability-bound
implementation: for every input result and payload, `compat`, `context` and
`with_context` of the specialized implementation produce the same results as
the generic one. -/
theorem C9_specialization_agrees {T D : Type} [Display D]
    (r : Result T Error) (d : D) (f : Error → D) :
    ErrorResultExt.compat r = ResultExt.compat r ∧
    ErrorResultExt.context r d = ResultExt.context r d ∧
    ErrorResultExt.with_context r f = ResultExt.with_context r f :=
  ⟨rfl, rfl, rfl⟩

/-- C10: on every error result, the lazy transform coincides with the
fixed-payload transform applied to the function's output:
`with_context (err e) f = context (err e) (f e)`; and both transforms (and
`compat`) preserve the Ok/Err discriminant of their input. -/
theorem C10_lazy_coincides_with_fixed {T E D : Type} [Fail E] [Display D]
    (e : E) (f : E → D) (d : D) (r : Result T E) :
    ResultExt.with_context (Result.err e : Result T E) f
      = ResultExt.context (Result.err e) (f e) ∧
    (ResultExt.with_context r f).is_ok = r.is_ok ∧
    (ResultExt.context r d).is_ok = r.is_ok ∧
    (ResultExt.compat r).is_ok = r.is_ok := by
  refine ⟨rfl, ?_, ?_, ?_⟩ <;>
    cases r <;>
      rfl

end FailureSpec
